import Mathlib

/-!
Shallow embedding of the NestTask routine synchronization layer
(`useRoutines` hook and `routine.service` module) and proofs about it.

Entities carry the source's pending-sync markers as booleans; in the
TypeScript source these are `true | undefined` fields (`_isOffline`,
`_isOfflineUpdated`, `_isOfflineDeleted`, `_needsActivationSync`,
`_needsDeactivationSync`); `false` here models `undefined` (both are
falsy in every check the source performs).
-/

namespace NestTask

/-- A slot of a routine, as stored in the client's IndexedDB store.
`isOffline` models `_isOffline` (created offline, pending create),
`isOfflineUpdated` models `_isOfflineUpdated`,
`isOfflineDeleted` models `_isOfflineDeleted`. -/
structure RoutineSlot where
  id : String
  routineId : String
  dayOfWeek : String
  startTime : String
  endTime : String
  isOffline : Bool := false
  isOfflineUpdated : Bool := false
  isOfflineDeleted : Bool := false
deriving Repr, DecidableEq

/-- A routine, as stored in the client's IndexedDB store, with its
embedded slots and the source's pending-sync markers. -/
structure Routine where
  id : String
  name : String
  isActive : Bool := false
  slots : List RoutineSlot := []
  isOffline : Bool := false
  isOfflineUpdated : Bool := false
  isOfflineDeleted : Bool := false
  needsActivationSync : Bool := false
  needsDeactivationSync : Bool := false
deriving Repr, DecidableEq

/-! ### String primitives

The JavaScript string operations the source uses (`split`, `trim`,
`toUpperCase`, `Number`, number rendering, lexicographic comparison)
are embedded as structural functions over the character list, so that
every theorem below evaluates by kernel reduction. -/

/-- JavaScript `String.prototype.split` with a one-character separator:
worker over the character list. -/
def splitAux (sep : Char) : List Char → List Char → List (List Char)
  | [], acc => [acc.reverse]
  | c :: cs, acc =>
    if c = sep then acc.reverse :: splitAux sep cs []
    else splitAux sep cs (c :: acc)

/-- JavaScript `s.split(sep)` for a one-character separator. -/
def jsSplit (sep : Char) (s : String) : List String :=
  (splitAux sep s.data []).map fun l => String.mk l

/-- Lexicographic order on character lists (code-unit order, as the
backend compares `HH:MM:SS` time strings). -/
def listLtB : List Char → List Char → Bool
  | [], [] => false
  | [], _ :: _ => true
  | _ :: _, [] => false
  | a :: as, b :: bs =>
    if a.toNat < b.toNat then true
    else if b.toNat < a.toNat then false
    else listLtB as bs

/-- Strict lexicographic comparison of strings. -/
def strLtB (a b : String) : Bool := listLtB a.data b.data

/-- JavaScript `s.trim()` (the inputs only ever carry plain spaces). -/
def jsTrim (s : String) : String :=
  String.mk (((s.data.dropWhile (· = ' ')).reverse.dropWhile (· = ' ')).reverse)

/-- ASCII upper-casing of one character. -/
def upChar (c : Char) : Char :=
  if 97 ≤ c.toNat && c.toNat ≤ 122 then Char.ofNat (c.toNat - 32) else c

/-- JavaScript `s.toUpperCase()` on the ASCII range the source meets. -/
def jsToUpper (s : String) : String := String.mk (s.data.map upChar)

/-- Decimal digit value of a character, if it is a digit. -/
def charDigit? (c : Char) : Option Nat :=
  if 48 ≤ c.toNat && c.toNat ≤ 57 then some (c.toNat - 48) else none

/-- Accumulating decimal reader; any non-digit makes the value `NaN`
(`none`). -/
def digitsValAux (acc : Nat) : List Char → Option Nat
  | [] => some acc
  | c :: cs =>
    match charDigit? c with
    | some d => digitsValAux (acc * 10 + d) cs
    | none => none

/-- Decimal rendering of a natural number (fuel-structured so it
reduces in the kernel). -/
def natDigitsAux : Nat → Nat → List Char
  | 0, _ => []
  | fuel + 1, n =>
    if n < 10 then [Char.ofNat (48 + n)]
    else natDigitsAux fuel (n / 10) ++ [Char.ofNat (48 + n % 10)]

/-- JavaScript rendering of a (natural) number. -/
def natRender (n : Nat) : String := String.mk (natDigitsAux (n + 1) n)

/-- Ids generated for entities created while offline are prefixed
(`temp-${Date.now()}-${random}` in `createRoutine`,
`temp-slot-...` in `addRoutineSlot`); this tests that prefix. -/
def isTempId (s : String) : Bool :=
  match s.data with
  | 't' :: 'e' :: 'm' :: 'p' :: '-' :: _ => true
  | _ => false

/-! ## Activation (`activateRoutine` in the hook)

Offline path (from the source):
```
setRoutines(prev => prev.map(routine => ({
  ...routine,
  isActive: routine.id === routineId,
  _needsActivationSync: routine.id === routineId ? true : undefined
})));
```
and the same `map` is applied to the IndexedDB copy.  Online path calls
`activateRoutineService(routineId)` first and, on success, maps
`isActive: routine.id === routineId` over all routines; if the service
throws, the `catch` rethrows before any local write happens. -/

/-- The per-routine transform of the offline `activateRoutine` path. -/
def activateOfflineRoutine (targetId : String) (r : Routine) : Routine :=
  { r with isActive := r.id == targetId, needsActivationSync := r.id == targetId }

/-- The per-routine transform of the online `activateRoutine` path
(after `activateRoutineService` succeeded). -/
def activateOnlineRoutine (targetId : String) (r : Routine) : Routine :=
  { r with isActive := r.id == targetId }

/-- `activateRoutine` as it acts on the persisted routine list.
`serviceOk` is the outcome of `activateRoutineService` on the online
path; a failure rethrows before any local write, leaving the list
unchanged. -/
def activateRoutine (offline : Bool) (serviceOk : Bool) (targetId : String)
    (routines : List Routine) : List Routine :=
  if offline then
    routines.map (activateOfflineRoutine targetId)
  else if serviceOk then
    routines.map (activateOnlineRoutine targetId)
  else
    routines

/-- Number of routines flagged active. -/
def countActive (routines : List Routine) : Nat :=
  (routines.filter (fun r => r.isActive)).length

/-! ## Local Store mutations done while offline

`createRoutine` (offline branch): synthesizes `temp-...` id, marks
`_isOffline: true`, saves the single item to IndexedDB (upsert by id).
`deleteRoutine` (offline branch): finds the routine and saves it back
with `_isOfflineDeleted: true`; it performs no `_isOffline` check.
`deleteRoutineSlot` (offline branch): maps `_isOfflineDeleted: true`
onto the matching slot and then filters out the slot when it was a
temporary (`_isOffline`) one. -/

/-- IndexedDB `saveToIndexedDB` of a single item: replace the first
entry with the same id, else append. -/
def upsertRoutine (r : Routine) : List Routine → List Routine
  | [] => [r]
  | x :: xs => if x.id == r.id then r :: xs else x :: upsertRoutine r xs

/-- Offline branch of `createRoutine`: the new provisional routine
(with the generated temporary id) is saved to the store. -/
def createRoutineOffline (tempId : String) (name : String)
    (routines : List Routine) : List Routine :=
  upsertRoutine { id := tempId, name := name, slots := [], isOffline := true } routines

/-- Offline branch of `deleteRoutine`: mark the routine
`_isOfflineDeleted` and save it back; the store keeps the tombstone. -/
def deleteRoutineOffline (id : String) (routines : List Routine) : List Routine :=
  match routines.find? (fun r => r.id == id) with
  | some r => upsertRoutine { r with isOfflineDeleted := true } routines
  | none => routines

/-- The slot-list transform of the offline branch of
`deleteRoutineSlot`: mark the matching slot deleted, then drop it
entirely when it was a temporary (offline-created) slot. -/
def deleteSlotOffline (slotId : String) (slots : List RoutineSlot) : List RoutineSlot :=
  (slots.map fun s => if s.id == slotId then { s with isOfflineDeleted := true } else s).filter
    fun s => !(s.id == slotId && s.isOffline)

/-- Offline branch of `deleteRoutineSlot` on the whole store. -/
def deleteRoutineSlotOffline (routineId slotId : String)
    (routines : List Routine) : List Routine :=
  match routines.find? (fun r => r.id == routineId) with
  | some r => upsertRoutine { r with slots := deleteSlotOffline slotId r.slots } routines
  | none => routines

/-! ## Reconciliation (`syncOfflineChanges`) -/

/-- One remote call issued by the sync engine, in the order the source
issues them (the arguments record only the identifiers the source
passes to the service layer; create payloads carry no id). -/
inductive GatewayCall where
  | deleteRoutine (id : String)
  | activateRoutine (id : String)
  | deactivateRoutine (id : String)
  | createRoutine (name : String)
  | updateRoutine (id : String)
  | deleteSlot (routineId slotId : String)
  | createSlot (routineId : String)
  | updateSlot (routineId slotId : String)
deriving Repr, DecidableEq

/-- Outcomes of the remote service calls during a sync pass.  `none`
from a create models a thrown error; `false` from the others likewise. -/
structure SyncOracle where
  deleteRoutineOk : String → Bool
  activateRoutineOk : String → Bool
  deactivateRoutineOk : String → Bool
  createRoutineResult : Routine → Option Routine
  updateRoutineOk : String → Bool
  deleteSlotOk : String → String → Bool
  createSlotResult : String → RoutineSlot → Option RoutineSlot
  updateSlotOk : String → String → Bool

/-- An oracle for which every remote call succeeds; created entities
come back with a server-assigned (`srv-` prefixed) id and cleared
markers. -/
def gAll : SyncOracle where
  deleteRoutineOk := fun _ => true
  activateRoutineOk := fun _ => true
  deactivateRoutineOk := fun _ => true
  createRoutineResult := fun r =>
    some { r with id := "srv-" ++ r.id, isOffline := false }
  updateRoutineOk := fun _ => true
  deleteSlotOk := fun _ _ => true
  createSlotResult := fun rid s =>
    some { s with id := "srv-" ++ s.id, routineId := rid, isOffline := false }
  updateSlotOk := fun _ _ => true

/-- `findIndex` + in-place assignment: update the first element
matching `p`, report whether one was found. -/
def updateFirst (p : α → Bool) (f : α → α) : List α → List α × Bool
  | [] => ([], false)
  | x :: xs =>
    if p x then (f x :: xs, true)
    else
      let r := updateFirst p f xs
      (x :: r.1, r.2)

/-- `findIndex` + `splice(i, 1)`: remove the first element matching
`p`, report whether one was found. -/
def removeFirst (p : α → Bool) : List α → List α × Bool
  | [] => ([], false)
  | x :: xs =>
    if p x then (xs, true)
    else
      let r := removeFirst p xs
      (x :: r.1, r.2)

/-- The skip test at the top of the sync loop: a routine participates
only when it or one of its slots carries a pending marker. -/
def hasOfflineChanges (r : Routine) : Bool :=
  r.isOffline || r.isOfflineUpdated || r.isOfflineDeleted ||
    r.needsActivationSync || r.needsDeactivationSync ||
    r.slots.any fun s => s.isOffline || s.isOfflineUpdated || s.isOfflineDeleted

/-- Accumulator of the sync loops: current synced list, the
`hasChanges`/`slotsChanged` flag, `syncErrors`, and the trace of
gateway calls issued so far. -/
abbrev SlotSyncAcc := List RoutineSlot × Bool × Nat × List GatewayCall

/-- One iteration of the inner slot loop of `syncOfflineChanges`:
deletions (`continue`), then creations (`continue`), then updates. -/
def syncSlotStep (g : SyncOracle) (rid : String) (acc : SlotSyncAcc)
    (slot : RoutineSlot) : SlotSyncAcc :=
  let (synced, changed, errs, trace) := acc
  if !(slot.isOffline || slot.isOfflineUpdated || slot.isOfflineDeleted) then
    acc
  else if slot.isOfflineDeleted then
    let trace := trace ++ [GatewayCall.deleteSlot rid slot.id]
    if g.deleteSlotOk rid slot.id then
      let r := removeFirst (fun s => s.id == slot.id) synced
      (r.1, changed || r.2, errs, trace)
    else (synced, changed, errs + 1, trace)
  else if slot.isOffline then
    let trace := trace ++ [GatewayCall.createSlot rid]
    match g.createSlotResult rid slot with
    | some newSlot =>
      let r := updateFirst (fun s => s.id == slot.id) (fun _ => newSlot) synced
      (r.1, changed || r.2, errs, trace)
    | none => (synced, changed, errs + 1, trace)
  else if slot.isOfflineUpdated then
    let trace := trace ++ [GatewayCall.updateSlot rid slot.id]
    if g.updateSlotOk rid slot.id then
      let upd := { slot with routineId := rid, isOffline := false, isOfflineUpdated := false }
      let r := updateFirst (fun s => s.id == slot.id) (fun _ => upd) synced
      (r.1, changed || r.2, errs, trace)
    else (synced, changed, errs + 1, trace)
  else acc

/-- Accumulator of the outer routine loop. -/
abbrev RoutineSyncAcc := List Routine × Bool × Nat × List GatewayCall

/-- One iteration of the outer loop of `syncOfflineChanges`, in the
source's order: routine deletion (`continue`), activation or
deactivation, offline creation (`continue`), update, then the slot
loop for the routine's slots. -/
def syncRoutineStep (g : SyncOracle) (acc : RoutineSyncAcc)
    (routine : Routine) : RoutineSyncAcc :=
  let (synced, hasChanges, errs, trace) := acc
  if !hasOfflineChanges routine then acc
  else if routine.isOfflineDeleted then
    let trace := trace ++ [GatewayCall.deleteRoutine routine.id]
    if g.deleteRoutineOk routine.id then
      (synced.filter (fun r => !(r.id == routine.id)), true, errs, trace)
    else (synced, hasChanges, errs + 1, trace)
  else
    let step1 : RoutineSyncAcc :=
      if routine.needsActivationSync then
        let trace := trace ++ [GatewayCall.activateRoutine routine.id]
        if g.activateRoutineOk routine.id then
          let r := updateFirst (fun x => x.id == routine.id)
            (fun x => { x with isActive := true, needsActivationSync := false }) synced
          (r.1, hasChanges || r.2, errs, trace)
        else (synced, hasChanges, errs + 1, trace)
      else if routine.needsDeactivationSync then
        let trace := trace ++ [GatewayCall.deactivateRoutine routine.id]
        if g.deactivateRoutineOk routine.id then
          let r := updateFirst (fun x => x.id == routine.id)
            (fun x => { x with isActive := false, needsDeactivationSync := false }) synced
          (r.1, hasChanges || r.2, errs, trace)
        else (synced, hasChanges, errs + 1, trace)
      else (synced, hasChanges, errs, trace)
    let (synced, hasChanges, errs, trace) := step1
    if routine.isOffline then
      let trace := trace ++ [GatewayCall.createRoutine routine.name]
      match g.createRoutineResult routine with
      | some newRoutine =>
        (synced.filter (fun r => !(r.id == routine.id)) ++ [newRoutine], true, errs, trace)
      | none => (synced, hasChanges, errs + 1, trace)
    else
      let step2 : RoutineSyncAcc :=
        if routine.isOfflineUpdated then
          let trace := trace ++ [GatewayCall.updateRoutine routine.id]
          if g.updateRoutineOk routine.id then
            let merge : Routine → Routine := fun x =>
              { x with
                name := routine.name
                isActive := routine.isActive
                isOfflineDeleted := routine.isOfflineDeleted
                isOfflineUpdated := false }
            let r := updateFirst (fun x => x.id == routine.id) merge synced
            (r.1, hasChanges || r.2, errs, trace)
          else (synced, hasChanges, errs + 1, trace)
        else (synced, hasChanges, errs, trace)
      let (synced, hasChanges, errs, trace) := step2
      if routine.slots.isEmpty then (synced, hasChanges, errs, trace)
      else
        let slotRes := routine.slots.foldl (syncSlotStep g routine.id)
          (routine.slots, false, errs, trace)
        let (syncedSlots, slotsChanged, errs, trace) := slotRes
        if slotsChanged then
          let r := updateFirst (fun x => x.id == routine.id)
            (fun x => { x with slots := syncedSlots }) synced
          (r.1, hasChanges || r.2, errs, trace)
        else (synced, hasChanges, errs, trace)

/-- The state `syncOfflineChanges` consults: the persisted store plus
the connectivity flag and the in-memory single-flight guard. -/
structure SyncState where
  routines : List Routine
  isOffline : Bool := false
  syncInProgress : Bool := false
deriving Repr, DecidableEq

/-- `syncOfflineChanges`: guard (`if (isOffline || syncInProgress)
return`), then the routine loop over the store, then (when anything
changed) the write-back of the synced list.  Returns the new state and
the trace of remote calls issued. -/
def syncOfflineChanges (g : SyncOracle) (s : SyncState) :
    SyncState × List GatewayCall :=
  if s.isOffline || s.syncInProgress then (s, [])
  else
    let res := s.routines.foldl (syncRoutineStep g) (s.routines, false, 0, [])
    let (synced, hasChanges, _errs, trace) := res
    if hasChanges then ({ s with routines := synced }, trace)
    else (s, trace)

/-! ## `loadRoutines` (cache-validity and fallback decision logic)

Translated from the hook's `loadRoutines(forceRefresh, isAdminView)`:
admin view forces a refresh; a forced refresh removes the cache
timestamp; offline serves the IndexedDB contents; online serves the
cache only when the timestamp is within the 5-minute window, the cache
is nonempty and some cached routine has slot data; otherwise it
fetches, and on a fetch failure (after the retry loop) it records an
error and falls back to the cached routines when any exist.  The
per-stage slot backfill is abstracted into the fetch outcome. -/

structure LoadInput where
  isOffline : Bool
  forceRefresh : Bool
  isAdminView : Bool
  now : Nat
  lastFetched : Option Nat
  cached : List Routine
  fetchOutcome : Option (List Routine)

/-- What one `loadRoutines` call publishes: `published = some l` when
`setRoutines l` is called, `none` when the visible set is left
untouched; `errorMsg` is the `setError` surfaced to the caller;
`fetchPerformed` records whether the remote fetch path ran. -/
structure LoadOutcome where
  published : Option (List Routine)
  errorMsg : Option String
  fetchPerformed : Bool
deriving Repr, DecidableEq

def loadRoutines (inp : LoadInput) : LoadOutcome :=
  let force1 := inp.forceRefresh || inp.isAdminView
  let lastFetched := if force1 then none else inp.lastFetched
  if inp.isOffline then
    { published := some inp.cached, errorMsg := none, fetchPerformed := false }
  else
    let cacheDurationMs := 5 * 60 * 1000
    let isCacheValid :=
      !inp.isAdminView && !force1 &&
        (match lastFetched with
         | some ts => decide (inp.now - ts < cacheDurationMs)
         | none => false)
    let hasSlots := inp.cached.any fun r => !r.slots.isEmpty
    if isCacheValid && !force1 && !inp.cached.isEmpty && hasSlots then
      { published := some inp.cached, errorMsg := none, fetchPerformed := false }
    else
      match inp.fetchOutcome with
      | some data => { published := some data, errorMsg := none, fetchPerformed := true }
      | none =>
        { published := if inp.cached.isEmpty then none else some inp.cached,
          errorMsg := some "Failed to load routines after multiple attempts",
          fetchPerformed := true }

/-! ## Bulk slot import (`bulkImportRoutineSlots` in the service,
`bulkImportSlots` in the hook) -/

/-- `convertTo24HourFormat` helper: JavaScript `Number(s)` on the split
time components, restricted to the shapes the function meets —
`Number("")` is `0`, a digit string is its value, anything else is
`NaN` (`none`). -/
def jsNumber (s : String) : Option Nat :=
  match s.data with
  | [] => some 0
  | l => digitsValAux 0 l

/-- JavaScript number rendering of the possibly-`NaN` hour/minute. -/
def optNatRender : Option Nat → String
  | none => "NaN"
  | some n => natRender n

/-- `padStart(2, '0')`. -/
def padStart2 (s : String) : String :=
  if s.length = 0 then "00" else if s.length = 1 then "0" ++ s else s

/-- Second stage of `convertTo24HourFormat`: the destructuring of
`timePart.split(':')`.  Fewer than two parts make the source throw on
`minutes.toString()` (`undefined`), so the `catch` returns the input
unchanged; non-numeric components do not throw — they propagate as
`NaN` into the rendered result. -/
def convertTimeParts (orig amPmPart : String) : List String → String
  | hoursStr :: minutesStr :: _ =>
    let hours0 := jsNumber hoursStr
    let minutes := jsNumber minutesStr
    let amPm := jsToUpper amPmPart
    let hours : Option Nat :=
      if amPm = "PM" then
        match hours0 with
        | some h => if h < 12 then some (h + 12) else some h
        | none => none
      else if amPm = "AM" then
        match hours0 with
        | some h => if h = 12 then some 0 else some h
        | none => none
      else hours0
    padStart2 (optNatRender hours) ++ ":" ++ padStart2 (optNatRender minutes) ++ ":00"
  | _ => orig

/-- First stage of `convertTo24HourFormat`: the destructuring of
`timeString.split(' ')`.  A missing AM/PM part makes the source throw
on `amPmPart.toUpperCase()` (`undefined`), so the `catch` returns the
input unchanged. -/
def convertTimeSplit (orig : String) : List String → String
  | timePart :: amPmPart :: _ => convertTimeParts orig amPmPart (jsSplit ':' timePart)
  | _ => orig

/-- `convertTo24HourFormat` from the service: splits on the space and
the colon, applies the AM/PM shift, and renders zero-padded
`HH:MM:00`; any thrown error returns the input unchanged. -/
def convertTo24HourFormat (timeString : String) : String :=
  convertTimeSplit timeString (jsSplit ' ' timeString)

/-- An input row of the bulk import JSON.  Optional string fields use
`""` for "absent": JavaScript treats `undefined` and `""` identically
in every truthiness check the source performs on them.
(`sectionName` models the source's `section` field, which is a
reserved word here.) -/
structure ImportRow where
  day : String
  start_time : String
  end_time : String
  teacher : String
  course : String := ""
  course_title : String := ""
  course_code : String := ""
  room_number : String := ""
  sectionName : String := ""
  teacherIdDirect : String := ""
  courseIdDirect : String := ""
deriving Repr, DecidableEq

/-- A `routine_slots` row already present in the backend, as seen by
the conflict query. -/
structure DbSlot where
  routineId : String
  dayOfWeek : String
  startTime : String
  endTime : String
deriving Repr, DecidableEq

/-- The insert payload built for one accepted row. -/
structure ProcessedSlot where
  routineId : String
  courseId : Option String
  teacherId : Option String
  courseName : Option String
  teacherName : Option String
  dayOfWeek : String
  startTime : String
  endTime : String
  roomNumber : Option String
  sectionName : Option String
deriving Repr, DecidableEq

/-- The remote backend as the import sees it: routine existence,
existing slot rows, course/teacher lookups, and the batch insert
outcome (`some n` = `n` rows inserted, `none` = database error; the
column-degradation retry is folded into this outcome). -/
structure RemoteDb where
  routineExists : String → Bool
  existingSlots : List DbSlot
  courseByCode : String → Option (String × String)
  courseNameById : String → Option String
  teacherByName : String → Option String
  teacherNameById : String → Option String
  insertSlots : List ProcessedSlot → Option Nat

/-- `start_time.lte.x` on the backend: lexicographic comparison, which
on well-formed `HH:MM:SS` strings agrees with time order. -/
def timeLeB (a b : String) : Bool := strLtB a b || a == b

/-- `end_time.gte.x` on the backend. -/
def timeGeB (a b : String) : Bool := timeLeB b a

/-- The conflict condition the source's query applies to an existing
slot: `.or(start_time.lte.${endTime},end_time.gte.${startTime})`. -/
def codeConflictB (existingStart existingEnd newStart newEnd : String) : Bool :=
  timeLeB existingStart newEnd || timeGeB existingEnd newStart

/-- Modelled from the spec: the overlap condition §4.3 states —
`existing.start < new.end AND existing.end > new.start` — for
comparison with `codeConflictB`. -/
def specOverlapB (existingStart existingEnd newStart newEnd : String) : Bool :=
  strLtB existingStart newEnd && strLtB newStart existingEnd

/-- The conflict query: existing slots of the same routine and day
satisfying the source's `or` filter. -/
def conflictingSlots (db : RemoteDb) (routineId day newStart newEnd : String) :
    List DbSlot :=
  db.existingSlots.filter fun s =>
    s.routineId == routineId && s.dayOfWeek == day &&
      codeConflictB s.startTime s.endTime newStart newEnd

/-- `extractCourseCode`: last `-`-separated part, trimmed, else the
whole trimmed name. -/
def extractCourseCode (courseName : String) : String :=
  let parts := jsSplit '-' courseName
  if parts.length ≥ 2 then jsTrim (parts.getLastD "") else jsTrim courseName

/-- JavaScript `x || null` on a string value. -/
def strOrNone (s : String) : Option String := if s = "" then none else some s

/-- Processing of one input row (the body of the `for` loop of
`bulkImportRoutineSlots`): resolve course and teacher, convert the
times, run the conflict query; a conflict yields the row error, else
the insert payload.  Lookup misses only leave the ids `null` (the
source merely warns).  The course/teacher caches are omitted: they
only avoid repeated identical lookups. -/
def processRow (db : RemoteDb) (routineId : String) (index : Nat)
    (row : ImportRow) : Except String ProcessedSlot :=
  let cidCn : Option String × Option String :=
    if row.courseIdDirect == "" then
      let ccCn1 : String × Option String :=
        if !(row.course_code == "") then
          (jsTrim row.course_code, strOrNone row.course_title)
        else if !(row.course == "") then
          (extractCourseCode row.course, strOrNone (jsTrim ((jsSplit '-' row.course).headD "")))
        else ("", none)
      let (courseCode, courseName1) := ccCn1
      if !(courseCode == "") then
        match db.courseByCode courseCode with
        | some (cid, cname) =>
          (strOrNone cid, match strOrNone cname with
            | some nm => some nm
            | none => courseName1)
        | none => (none, courseName1)
      else (none, courseName1)
    else
      match db.courseNameById row.courseIdDirect with
      | some nm => (some row.courseIdDirect, some nm)
      | none => (some row.courseIdDirect, none)
  let (courseId, courseName) := cidCn
  let tidTn : Option String × Option String :=
    if row.teacherIdDirect == "" then
      let tname := jsTrim row.teacher
      match db.teacherByName tname with
      | some tid => (strOrNone tid, some tname)
      | none => (none, some tname)
    else
      match db.teacherNameById row.teacherIdDirect with
      | some nm => (some row.teacherIdDirect, some nm)
      | none => (some row.teacherIdDirect, some row.teacher)
  let (teacherId, teacherName) := tidTn
  let startTime := convertTo24HourFormat row.start_time
  let endTime := convertTo24HourFormat row.end_time
  if !(conflictingSlots db routineId row.day startTime endTime).isEmpty then
    Except.error ("Slot #" ++ natRender (index + 1) ++
      ": Time conflict with existing slot on " ++ row.day ++ " at " ++
      row.start_time ++ " - " ++ row.end_time)
  else
    Except.ok
      { routineId := routineId
        courseId := courseId
        teacherId := teacherId
        courseName := courseName
        teacherName := teacherName
        dayOfWeek := row.day
        startTime := startTime
        endTime := endTime
        roomNumber := strOrNone row.room_number
        sectionName := strOrNone row.sectionName }

/-- The `{ success, errors }` report of the bulk import. -/
structure ImportReport where
  success : Nat
  errors : List String
deriving Repr, DecidableEq

/-- `bulkImportRoutineSlots` from the service: validate the routine id,
process every row (conflicts and row failures append to `errors`, the
rest accumulate in `processedSlots`), then insert the whole batch at
once — the conflict query never sees rows of the same batch. -/
def bulkImportRoutineSlots (db : RemoteDb) (routineId : String)
    (rows : List ImportRow) : ImportReport :=
  if !db.routineExists routineId then
    { success := 0, errors := ["Invalid routine ID: Routine not found"] }
  else
    let step := fun (acc : List String × List ProcessedSlot) (p : Nat × ImportRow) =>
      match processRow db routineId p.1 p.2 with
      | Except.ok ps => (acc.1, acc.2 ++ [ps])
      | Except.error e => (acc.1 ++ [e], acc.2)
    let res := rows.enum.foldl step ([], [])
    let (errors, processed) := res
    if processed.isEmpty then { success := 0, errors := errors }
    else
      match db.insertSlots processed with
      | some n => { success := n, errors := errors }
      | none => { success := 0, errors := errors ++ ["Database error during import"] }

/-- `bulkImportSlots` from the hook: offline short-circuits with a
single error; online delegates to the service (whose result the hook
returns after its cache refresh). -/
def bulkImportSlots (isOffline : Bool) (db : RemoteDb) (routineId : String)
    (rows : List ImportRow) : ImportReport :=
  if isOffline then
    { success := 0, errors := ["Bulk import is not available in offline mode"] }
  else bulkImportRoutineSlots db routineId rows

/-! ## Concrete test fixtures used by the theorems below -/

/-- A routine whose only pending marker is `_isOfflineDeleted`. -/
def pendingDeleteRoutine (b : String) : Routine :=
  { id := b, name := b, isOfflineDeleted := true }

/-- A slot created offline (carrying `_isOffline`). -/
def offlineSlot (a sid : String) : RoutineSlot :=
  { id := sid, routineId := a, dayOfWeek := "Mon", startTime := "08:00:00",
    endTime := "09:00:00", isOffline := true }

/-- A clean routine owning one offline-created slot. -/
def routineWithOfflineSlot (a sid : String) : Routine :=
  { id := a, name := a, slots := [offlineSlot a sid] }

/-- Routine with a pending activation from an earlier offline call. -/
def rPendingAct : Routine := { id := "r-P", name := "P", needsActivationSync := true }

/-- A clean routine. -/
def rClean : Routine := { id := "r-Q", name := "Q" }

/-- A cached routine with no slot data. -/
def rCacheOnly : Routine := { id := "r-1", name := "Cached" }

/-- An active cached routine (distinct id from `rCacheOnly`). -/
def rActive : Routine := { id := "r-2", name := "Active", isActive := true }

/-- Online `load`, no cache timestamp, fetch fails, one cached routine. -/
def inpFetchFail : LoadInput :=
  { isOffline := false, forceRefresh := false, isAdminView := false, now := 0,
    lastFetched := none, cached := [rCacheOnly], fetchOutcome := none }

/-- Online forced `load` whose fetch fails, one cached routine. -/
def inpFetchFailForced : LoadInput :=
  { isOffline := false, forceRefresh := true, isAdminView := false, now := 0,
    lastFetched := none, cached := [rCacheOnly], fetchOutcome := none }

/-- Online unforced `load` with a fresh timestamp but an empty-slot cache. -/
def inpEmptySlotCache : LoadInput :=
  { isOffline := false, forceRefresh := false, isAdminView := false, now := 1000,
    lastFetched := some 900, cached := [rCacheOnly], fetchOutcome := some [] }

/-- A state whose single-flight guard is set. -/
def sGuard : SyncState := { routines := [rCacheOnly], syncInProgress := true }

/-- Backend with one existing Monday slot 09:00–10:00 for routine `R`;
inserts succeed and report the batch size. -/
def db1 : RemoteDb where
  routineExists := fun r => r == "R"
  existingSlots := [{ routineId := "R", dayOfWeek := "Monday",
                      startTime := "09:00:00", endTime := "10:00:00" }]
  courseByCode := fun _ => none
  courseNameById := fun _ => none
  teacherByName := fun _ => none
  teacherNameById := fun _ => none
  insertSlots := fun l => some l.length

/-- Backend with no existing slots for routine `R`. -/
def db0 : RemoteDb := { db1 with existingSlots := [] }

/-- Backend whose batch insert fails. -/
def dbInsertFail : RemoteDb := { db0 with insertSlots := fun _ => none }

/-- Import row Monday 10:00–11:00. -/
def row1 : ImportRow :=
  { day := "Monday", start_time := "10:00 AM", end_time := "11:00 AM", teacher := "T" }

/-- Import row Monday 09:00–10:00. -/
def rowA : ImportRow :=
  { day := "Monday", start_time := "09:00 AM", end_time := "10:00 AM", teacher := "T" }

/-- Import row Monday 09:30–10:30 (overlaps `rowA`). -/
def rowB : ImportRow :=
  { day := "Monday", start_time := "09:30 AM", end_time := "10:30 AM", teacher := "T" }

/-- A non-temporary slot, for the C4 witness. -/
def slotFix : RoutineSlot :=
  { id := "s-1", routineId := "r-1", dayOfWeek := "Mon", startTime := "08:00:00",
    endTime := "09:00:00" }

lemma countActive_map_offline (t : String) (rs : List Routine) :
    countActive (rs.map (activateOfflineRoutine t)) =
      (rs.filter (fun r => r.id == t)).length := by
  induction rs with
  | nil => rfl
  | cons r rs ih =>
    by_cases h : r.id = t <;>
      simp [countActive, activateOfflineRoutine, List.filter_cons, h] at ih ⊢ <;>
      omega

lemma countActive_map_online (t : String) (rs : List Routine) :
    countActive (rs.map (activateOnlineRoutine t)) =
      (rs.filter (fun r => r.id == t)).length := by
  induction rs with
  | nil => rfl
  | cons r rs ih =>
    by_cases h : r.id = t <;>
      simp [countActive, activateOnlineRoutine, List.filter_cons, h] at ih ⊢ <;>
      omega

lemma length_filter_id_eq_count (t : String) (rs : List Routine) :
    (rs.filter (fun r => r.id == t)).length = (rs.map (fun r => r.id)).count t := by
  induction rs with
  | nil => rfl
  | cons r rs ih =>
    by_cases h : r.id = t <;>
      simp [List.filter_cons, List.count_cons, h, ih]

lemma length_filter_id_of_nodup (t : String) (rs : List Routine)
    (hmem : t ∈ rs.map (fun r => r.id))
    (hnodup : (rs.map (fun r => r.id)).Nodup) :
    (rs.filter (fun r => r.id == t)).length = 1 := by
  rw [length_filter_id_eq_count]
  exact List.count_eq_one_of_mem hnodup hmem

/-! ## Claim C1 -/

/-- Claim C1 (code_bug): the source's bulk-import conflict filter is
`existing.start <= new.end OR existing.end >= new.start`, not the
claimed AND of the two overlap conditions, and the batch is inserted
only after the per-row loop, so rows of one batch are never checked
against each other.  At the failing inputs: an existing 09:00–10:00
Monday slot makes the non-overlapping 10:00–11:00 row a "conflict"
(success 0, one error, though the claimed overlap predicate is false),
while importing the overlapping pair 09:00–10:00 / 09:30–10:30 into an
empty routine succeeds completely (success 2, no errors, though the
claim demands success 1 with one error). -/
theorem bulkImport_conflict_filter_diverges :
    specOverlapB "09:00:00" "10:00:00" "10:00:00" "11:00:00" = false ∧
    bulkImportRoutineSlots db1 "R" [row1] =
      { success := 0,
        errors := ["Slot #1: Time conflict with existing slot on Monday at 10:00 AM - 11:00 AM"] } ∧
    specOverlapB "09:00:00" "10:00:00" "09:30:00" "10:30:00" = true ∧
    bulkImportRoutineSlots db0 "R" [rowA, rowB] = { success := 2, errors := [] } := by
  refine ⟨by decide, by decide, by decide, by decide⟩

/-! ## Claim C2 -/

/-- Claim C2 (counterexample): with the store ordered so that the
routine owning the pendingCreate slot precedes the pendingDelete
routine, `syncOfflineChanges` issues the slot-create call before the
routine-delete call — deletions are not processed first across the
whole store. -/
theorem sync_create_before_delete_counterexample :
    (syncOfflineChanges gAll
        { routines := [routineWithOfflineSlot "r-A" "s-1", pendingDeleteRoutine "r-B"] }).2 =
      [GatewayCall.createSlot "r-A", GatewayCall.deleteRoutine "r-B"] := by
  decide

/-- Claim C2 (amended): `syncOfflineChanges` walks the store in order,
applying each routine's own deletion before its creations; the
pendingDelete routine's Remote Gateway delete call therefore precedes
the unrelated pendingCreate slot's create call exactly when the
pendingDelete routine comes first in the store. -/
theorem sync_delete_before_create_in_store_order (a b sid : String) :
    (syncOfflineChanges gAll
        { routines := [pendingDeleteRoutine b, routineWithOfflineSlot a sid] }).2 =
      [GatewayCall.deleteRoutine b, GatewayCall.createSlot a] := by
  simp [syncOfflineChanges, syncRoutineStep, syncSlotStep, hasOfflineChanges,
    pendingDeleteRoutine, routineWithOfflineSlot, offlineSlot, gAll,
    updateFirst, removeFirst, List.filter]

/-! ## Claim C3 -/

/-- Claim C3 (counterexample): a routine created offline (temporary id)
and then deleted offline is reachable with both markers set, and
reconciliation passes the temporary id to the Remote Gateway delete
operation as an existing-entity identifier. -/
theorem sync_sends_temp_id_counterexample :
    isTempId "temp-1" = true ∧
    GatewayCall.deleteRoutine "temp-1" ∈
      (syncOfflineChanges gAll
          { routines := deleteRoutineOffline "temp-1"
              (createRoutineOffline "temp-1" "N" []) }).2 := by
  decide

/-- Claim C3 (amended): for a routine created offline and then deleted
offline, reconciliation does pass the temporary id to the Remote
Gateway delete operation (rather than dropping the never-synced
entity), and after the successful pass the Local Store no longer
references the temporary id. -/
theorem sync_offline_created_deleted (tempId nm : String) :
    (syncOfflineChanges gAll
        { routines := deleteRoutineOffline tempId
            (createRoutineOffline tempId nm []) }).1.routines = [] ∧
    (syncOfflineChanges gAll
        { routines := deleteRoutineOffline tempId
            (createRoutineOffline tempId nm []) }).2 =
      [GatewayCall.deleteRoutine tempId] := by
  simp [createRoutineOffline, deleteRoutineOffline, upsertRoutine,
    syncOfflineChanges, syncRoutineStep, hasOfflineChanges, gAll, List.find?]

/-! ## Claim C4 -/

/-- Claim C4 (counterexample): an offline delete of a routine that
still carries `pendingCreate` leaves the routine in the Local Store
with `pendingCreate` and `pendingDelete` both set — the routine-level
delete performs no never-synced check. -/
theorem routine_delete_keeps_pendingCreate_counterexample :
    (deleteRoutineOffline "temp-1" (createRoutineOffline "temp-1" "N" [])).map
        (fun r => (r.isOffline, r.isOfflineDeleted)) = [(true, true)] := by
  decide

/-- Claim C4 (amended): the marker exclusivity holds at Slot level —
the offline slot delete removes a still-`pendingCreate` slot outright,
so it never produces a slot with both markers — but not at Routine
level: the offline routine delete marks `pendingDelete` even on a
never-synced (`pendingCreate`) routine, leaving both markers set. -/
theorem delete_offline_marker_exclusivity (slotId : String) (slots : List RoutineSlot)
    (hinv : ∀ s ∈ slots, ¬(s.isOffline = true ∧ s.isOfflineDeleted = true)) :
    (∀ s ∈ deleteSlotOffline slotId slots,
      ¬(s.isOffline = true ∧ s.isOfflineDeleted = true)) ∧
    (∀ tempId nm : String,
      (deleteRoutineOffline tempId (createRoutineOffline tempId nm [])).map
          (fun r => (r.isOffline, r.isOfflineDeleted)) = [(true, true)]) := by
  constructor
  · intro s hs
    simp only [deleteSlotOffline, List.mem_filter, List.mem_map] at hs
    obtain ⟨⟨s0, hs0, heq⟩, hpred⟩ := hs
    by_cases h : s0.id = slotId
    · subst heq
      simp [h] at hpred ⊢
      simp [hpred]
    · simp [h] at heq
      subst heq
      exact hinv s0 hs0
  · intro tempId nm
    simp [createRoutineOffline, deleteRoutineOffline, upsertRoutine, List.find?]

/-- Witness for the amended C4 theorem: a store with one clean slot. -/
theorem delete_offline_marker_exclusivity_witness :
    (∀ s ∈ deleteSlotOffline "s-1" [slotFix],
      ¬(s.isOffline = true ∧ s.isOfflineDeleted = true)) ∧
    (∀ tempId nm : String,
      (deleteRoutineOffline tempId (createRoutineOffline tempId nm [])).map
          (fun r => (r.isOffline, r.isOfflineDeleted)) = [(true, true)]) :=
  delete_offline_marker_exclusivity "s-1" [slotFix] (by decide)

/-! ## Claim C5 -/

/-- Claim C5 (counterexample): an online `load` whose fetch fails while
one routine is cached serves the cached routine AND surfaces the fetch
error — the error is not suppressed by the successful fallback. -/
theorem load_fallback_still_errors_counterexample :
    (loadRoutines inpFetchFail).published = some [rCacheOnly] ∧
    (loadRoutines inpFetchFail).errorMsg ≠ none := by
  decide

/-- Claim C5 (amended): when the online fetch fails, `load` serves the
cached routines if any exist (and leaves the visible set untouched
otherwise), but it surfaces the fetch error in either case — the error
is recorded before the fallback and never cleared by it. -/
theorem load_fetch_failure_surfaces_error (inp : LoadInput)
    (hoff : inp.isOffline = false) (hforce : inp.forceRefresh = true)
    (hfail : inp.fetchOutcome = none) :
    (loadRoutines inp).errorMsg =
      some "Failed to load routines after multiple attempts" ∧
    (loadRoutines inp).published =
      (if inp.cached.isEmpty then none else some inp.cached) := by
  simp [loadRoutines, hoff, hforce, hfail]

/-- Witness for the amended C5 theorem at a concrete input. -/
theorem load_fetch_failure_surfaces_error_witness :
    (loadRoutines inpFetchFailForced).errorMsg =
      some "Failed to load routines after multiple attempts" ∧
    (loadRoutines inpFetchFailForced).published =
      (if inpFetchFailForced.cached.isEmpty then none
       else some inpFetchFailForced.cached) :=
  load_fetch_failure_surfaces_error inpFetchFailForced rfl rfl rfl

/-! ## Claim C6 -/

/-- Claim C6 (confirmed): with the target id present in the store and
store ids unique, a completed `activate` leaves exactly one routine
active — the target — on both the offline path and the successful
online path; a failed online activate leaves the store untouched (so
it never empties the active set). -/
theorem activate_single_active (offline serviceOk : Bool) (t : String)
    (rs : List Routine)
    (hmem : t ∈ rs.map (fun r => r.id))
    (hnodup : (rs.map (fun r => r.id)).Nodup) :
    ((offline || serviceOk) = true →
      countActive (activateRoutine offline serviceOk t rs) = 1 ∧
      ∀ r ∈ activateRoutine offline serviceOk t rs, r.isActive = (r.id == t)) ∧
    ((offline || serviceOk) = false →
      activateRoutine offline serviceOk t rs = rs) := by
  constructor
  · intro hok
    cases offline with
    | true =>
      refine ⟨?_, ?_⟩
      · rw [show activateRoutine true serviceOk t rs =
            rs.map (activateOfflineRoutine t) from rfl,
          countActive_map_offline]
        exact length_filter_id_of_nodup t rs hmem hnodup
      · intro r hr
        rw [show activateRoutine true serviceOk t rs =
            rs.map (activateOfflineRoutine t) from rfl] at hr
        obtain ⟨r0, _, rfl⟩ := List.mem_map.mp hr
        rfl
    | false =>
      cases serviceOk with
      | true =>
        refine ⟨?_, ?_⟩
        · rw [show activateRoutine false true t rs =
              rs.map (activateOnlineRoutine t) from rfl,
            countActive_map_online]
          exact length_filter_id_of_nodup t rs hmem hnodup
        · intro r hr
          rw [show activateRoutine false true t rs =
              rs.map (activateOnlineRoutine t) from rfl] at hr
          obtain ⟨r0, _, rfl⟩ := List.mem_map.mp hr
          rfl
      | false => simp at hok
  · intro hfail
    cases offline with
    | true => simp at hfail
    | false =>
      cases serviceOk with
      | true => simp at hfail
      | false => rfl

/-- Witness for C6 at a concrete two-routine store. -/
theorem activate_single_active_witness :
    countActive (activateRoutine false true "r-1" [rCacheOnly, rActive]) = 1 :=
  ((activate_single_active false true "r-1" [rCacheOnly, rActive]
      (by decide) (by decide)).1 rfl).1

/-! ## Claim C7 -/

/-- Claim C7 (confirmed): an online unforced, non-admin `load` over a
cache whose routines all have empty slot lists always takes the remote
fetch path, whatever the freshness timestamp — an empty-slot cache is
never served as valid. -/
theorem load_empty_slot_cache_fetches (inp : LoadInput)
    (hoff : inp.isOffline = false)
    (hforce : inp.forceRefresh = false) (hadmin : inp.isAdminView = false)
    (hpop : inp.cached ≠ [])
    (hempty : ∀ r ∈ inp.cached, r.slots = []) :
    (loadRoutines inp).fetchPerformed = true := by
  have hslots : (inp.cached.any fun r => !r.slots.isEmpty) = false := by
    rw [List.any_eq_false]
    intro r hr
    simp [hempty r hr]
  cases hfetch : inp.fetchOutcome with
  | none => simp [loadRoutines, hoff, hforce, hadmin, hslots, hfetch]
  | some data => simp [loadRoutines, hoff, hforce, hadmin, hslots, hfetch]

/-- Witness for C7: a valid-timestamp cache holding one empty-slot
routine still triggers the fetch. -/
theorem load_empty_slot_cache_fetches_witness :
    (loadRoutines inpEmptySlotCache).fetchPerformed = true :=
  load_empty_slot_cache_fetches inpEmptySlotCache rfl rfl rfl
    (by decide) (by decide)

/-! ## Claim C8 -/

/-- Claim C8 (confirmed): `syncOfflineChanges` returns immediately —
unchanged state, no Remote Gateway calls — whenever the client is
offline or the single-flight guard is already set. -/
theorem sync_single_flight (g : SyncOracle) (s : SyncState)
    (h : s.isOffline = true ∨ s.syncInProgress = true) :
    syncOfflineChanges g s = (s, []) := by
  rcases h with h | h <;> simp [syncOfflineChanges, h]

/-- Witness for C8: a guarded state is returned untouched. -/
theorem sync_single_flight_witness : syncOfflineChanges gAll sGuard = (sGuard, []) :=
  sync_single_flight gAll sGuard (Or.inr rfl)

/-! ## Claim C9 -/

/-- Claim C9 (counterexample): a routine carrying `pendingActivation`
from an earlier offline call has that marker cleared (set back to the
unset state) when a different routine is activated offline — other
routines' pending markers are not all left unchanged. -/
theorem activate_offline_clears_other_marker_counterexample :
    rPendingAct.needsActivationSync = true ∧
    (activateRoutine true true "r-Q" [rPendingAct, rClean]).map
        (fun r => r.needsActivationSync) = [false, true] := by
  decide

/-- Claim C9 (amended): the offline `activate` path rewrites, for every
routine in the store, exactly the `isActive` flag and the
`pendingActivation` marker — set on the target, cleared on all others
— while each routine's identity, slots, and remaining pending markers
(`pendingCreate`, `pendingUpdate`, `pendingDelete`,
`pendingDeactivation`) are unchanged. -/
theorem activate_offline_frame (serviceOk : Bool) (t : String) (rs : List Routine) :
    activateRoutine true serviceOk t rs = rs.map (activateOfflineRoutine t) ∧
    ∀ r : Routine,
      (activateOfflineRoutine t r).id = r.id ∧
      (activateOfflineRoutine t r).name = r.name ∧
      (activateOfflineRoutine t r).slots = r.slots ∧
      (activateOfflineRoutine t r).isOffline = r.isOffline ∧
      (activateOfflineRoutine t r).isOfflineUpdated = r.isOfflineUpdated ∧
      (activateOfflineRoutine t r).isOfflineDeleted = r.isOfflineDeleted ∧
      (activateOfflineRoutine t r).needsDeactivationSync = r.needsDeactivationSync ∧
      (activateOfflineRoutine t r).isActive = (r.id == t) ∧
      (activateOfflineRoutine t r).needsActivationSync = (r.id == t) :=
  ⟨rfl, fun _ => ⟨rfl, rfl, rfl, rfl, rfl, rfl, rfl, rfl, rfl⟩⟩

/-! ## Claim C10 -/

/-- Claim C10 (counterexample): the time string `"ab:cd PM"` cannot be
parsed into 24-hour format, yet it is not passed through unchanged —
the JavaScript `NaN` arithmetic renders it as `"NaN:NaN:00"`. -/
theorem convert_time_not_passthrough_counterexample :
    convertTo24HourFormat "ab:cd PM" = "NaN:NaN:00" ∧
    convertTo24HourFormat "ab:cd PM" ≠ "ab:cd PM" := by
  decide

/-- Claim C10 (amended): `bulkImportSlots` always returns a
`{success, errors}` report — offline yields the single
offline-mode error, an unknown routine id the single invalid-routine
error, a failed batch insert appends the database error — and a time
string is never rejected as a validation error: one whose conversion
throws in the source (no space-separated AM/PM part, or no minutes
component) is passed through unchanged, while one with non-numeric
components is rendered with `NaN` parts instead. -/
theorem bulk_import_error_reporting (db : RemoteDb) (routineId : String)
    (rows : List ImportRow) (t : String) :
    (bulkImportSlots true db routineId rows =
      { success := 0, errors := ["Bulk import is not available in offline mode"] }) ∧
    (db.routineExists routineId = false →
      bulkImportSlots false db routineId rows =
        { success := 0, errors := ["Invalid routine ID: Routine not found"] }) ∧
    (bulkImportRoutineSlots dbInsertFail "R" [rowA] =
      { success := 0, errors := ["Database error during import"] }) ∧
    ((jsSplit ' ' t).length < 2 → convertTo24HourFormat t = t) ∧
    (∀ tp ap rest, jsSplit ' ' t = tp :: ap :: rest →
      (jsSplit ':' tp).length < 2 → convertTo24HourFormat t = t) := by
  refine ⟨rfl, ?_, by decide, ?_, ?_⟩
  · intro h
    simp [bulkImportSlots, bulkImportRoutineSlots, h]
  · intro hlen
    unfold convertTo24HourFormat
    cases hsp : jsSplit ' ' t with
    | nil => simp [convertTimeSplit]
    | cons a l =>
      cases l with
      | nil => simp [convertTimeSplit]
      | cons b l2 =>
        rw [hsp] at hlen
        simp only [List.length_cons] at hlen
        omega
  · intro tp ap rest hsp hlen
    unfold convertTo24HourFormat
    rw [hsp]
    simp only [convertTimeSplit]
    cases hsc : jsSplit ':' tp with
    | nil => simp [convertTimeParts]
    | cons a l =>
      cases l with
      | nil => simp [convertTimeParts]
      | cons b l2 =>
        rw [hsc] at hlen
        simp only [List.length_cons] at hlen
        omega

/-- Witness for the amended C10 theorem at concrete inputs. -/
theorem bulk_import_error_reporting_witness :
    bulkImportSlots false db1 "X" [] =
      { success := 0, errors := ["Invalid routine ID: Routine not found"] } ∧
    convertTo24HourFormat "0930" = "0930" :=
  ⟨(bulk_import_error_reporting db1 "X" [] "0930").2.1 (by decide),
   (bulk_import_error_reporting db1 "X" [] "0930").2.2.2.1 (by decide)⟩

end NestTask
